import Mathlib

/-!
A verification development for the view-state logic of heic-viewer-plus
(src/heic_viewer/main_window.py, graphics_items.py, image_view.py).

The program is a PySide6 (Qt) image viewer.  Its view-state core —
zoom/rotation/flip transform composition, non-destructive crop via a clip
rectangle, the undo/redo stack of view snapshots, suffix enforcement on
save, and file-list navigation — is pure bookkeeping over Qt geometry
types, which we embed here over exact rationals.

Conventions of the embedding:
* Qt QRectF is a rectangle given by x, y, w, h over the rationals.
* Qt QTransform is kept as its 2x2 linear part (m11 m12 m21 m22, in Qt
  row-vector convention where a point p maps to p * M).  No operation in
  this viewer ever introduces a translation component into the view
  transform: resetTransform, scale and rotate leave dx = dy = 0, and
  centerOn / scrolling act on the scroll bars, not on the transform.
* Rotations in this program always go through view_rotation, which is an
  integer number of degrees kept in [0, 360) by the Python expression
  (view_rotation + delta) % 360, and every call site passes delta in
  -90, 0, 90.  Qt QTransform.rotate special-cases the right angles 0,
  90, 180, 270, -90, -270 to exact constants without calling floating
  trigonometry, so on every rotation this program performs, the rational
  model below is exact.  Non-right angles, which would use qSin/qCos,
  do not occur; theorems that depend on rotation entries carry the
  corresponding divisibility hypotheses.
* Python floats are modelled as rationals; machine rounding is out of
  scope of these claims.
-/

namespace HeicViewerPlus

/-- Qt QRectF: position and size over the rationals. -/
structure QRect where
  x : ℚ
  y : ℚ
  w : ℚ
  h : ℚ
  deriving DecidableEq

namespace QRect

/-- QRectF.left() -/
def left (r : QRect) : ℚ := r.x

/-- QRectF.top() -/
def top (r : QRect) : ℚ := r.y

/-- QRectF.right() = x + w -/
def right (r : QRect) : ℚ := r.x + r.w

/-- QRectF.bottom() = y + h -/
def bottom (r : QRect) : ℚ := r.y + r.h

/-- QRectF.isEmpty(): true when w <= 0 or h <= 0. -/
def isEmpty (r : QRect) : Prop := r.w ≤ 0 ∨ r.h ≤ 0

instance (r : QRect) : Decidable r.isEmpty := by
  unfold isEmpty; infer_instance

/-- The null rectangle QRectF(). -/
def null : QRect := ⟨0, 0, 0, 0⟩

/-- Qt QRectF intersection (operator&, called by QRectF.intersected),
translated from the Qt source: both operands are normalised on the fly
(negative widths and heights folded into the origin) and a null rectangle
is returned when either operand is degenerate on an axis or the two do
not overlap. -/
def intersected (a b : QRect) : QRect :=
  let l1 := if a.w < 0 then a.x + a.w else a.x
  let r1 := if a.w < 0 then a.x else a.x + a.w
  if l1 = r1 then null
  else
    let l2 := if b.w < 0 then b.x + b.w else b.x
    let r2 := if b.w < 0 then b.x else b.x + b.w
    if l2 = r2 then null
    else if r2 ≤ l1 ∨ r1 ≤ l2 then null
    else
      let t1 := if a.h < 0 then a.y + a.h else a.y
      let b1 := if a.h < 0 then a.y else a.y + a.h
      if t1 = b1 then null
      else
        let t2 := if b.h < 0 then b.y + b.h else b.y
        let b2 := if b.h < 0 then b.y else b.y + b.h
        if t2 = b2 then null
        else if b2 ≤ t1 ∨ b1 ≤ t2 then null
        else
          ⟨max l1 l2, max t1 t2, min r1 r2 - max l1 l2, min b1 b2 - max t1 t2⟩

end QRect

/-- Qt QTransform, restricted to its 2x2 linear part (see the header
comment: the view transform of this program never carries a translation).
Row-vector convention: a point (px, py) maps to
(m11 * px + m21 * py, m12 * px + m22 * py). -/
structure QTransform where
  m11 : ℚ
  m12 : ℚ
  m21 : ℚ
  m22 : ℚ
  deriving DecidableEq

namespace QTransform

/-- QTransform(): the identity, as set by QGraphicsView.resetTransform. -/
def identityT : QTransform := ⟨1, 0, 0, 1⟩

/-- QTransform.scale(sx, sy), from the Qt source: the first row is
multiplied by sx and the second by sy (the early-out for sx = sy = 1
yields the same result). -/
def scaleT (t : QTransform) (sx sy : ℚ) : QTransform :=
  ⟨t.m11 * sx, t.m12 * sx, t.m21 * sy, t.m22 * sy⟩

/-- The row update inside QTransform.rotate: the new first row is
cosa * row1 + sina * row2, the new second row is -sina * row1 + cosa * row2. -/
def rotApply (t : QTransform) (sina cosa : ℚ) : QTransform :=
  ⟨cosa * t.m11 + sina * t.m21, cosa * t.m12 + sina * t.m22,
   -sina * t.m11 + cosa * t.m21, -sina * t.m12 + cosa * t.m22⟩

/-- QTransform.rotate(a) for an integer angle in degrees, translated from
the Qt source.  Qt initialises sina = 0, cosa = 0, returns the transform
unchanged at angle 0, and special-cases the right angles to exact
constants.  Any other angle would call floating qSin/qCos; this program
never passes one (view_rotation is always a multiple of 90), and theorems
about rotation entries carry that hypothesis. -/
def rotateT (t : QTransform) (a : ℤ) : QTransform :=
  if a = 0 then t
  else
    let sina : ℚ := if a = 90 ∨ a = -270 then 1 else if a = 270 ∨ a = -90 then -1 else 0
    let cosa : ℚ := if a = 90 ∨ a = -270 then 0 else if a = 270 ∨ a = -90 then 0
                    else if a = 180 then -1 else 0
    rotApply t sina cosa

/-- Matrix product in the same row-vector convention, i.e. the matrix of
Qt composition a * b (apply a to the point first, then b). -/
def mulT (a b : QTransform) : QTransform :=
  ⟨a.m11 * b.m11 + a.m12 * b.m21, a.m11 * b.m12 + a.m12 * b.m22,
   a.m21 * b.m11 + a.m22 * b.m21, a.m21 * b.m12 + a.m22 * b.m22⟩

/-- Transpose: converts between the Qt row-vector convention and the
standard column-vector convention for the same linear map. -/
def transposeT (t : QTransform) : QTransform :=
  ⟨t.m11, t.m21, t.m12, t.m22⟩

/-- QTransform.mapRect for an affine transform without translation,
translated from the Qt source: the four corners are mapped and their
bounding box returned. -/
def mapRectT (t : QTransform) (r : QRect) : QRect :=
  let px := fun (x y : ℚ) => t.m11 * x + t.m21 * y
  let py := fun (x y : ℚ) => t.m12 * x + t.m22 * y
  let x0 := px r.x r.y
  let y0 := py r.x r.y
  let x1 := px (r.x + r.w) r.y
  let y1 := py (r.x + r.w) r.y
  let x2 := px r.x (r.y + r.h)
  let y2 := py r.x (r.y + r.h)
  let x3 := px (r.x + r.w) (r.y + r.h)
  let y3 := py (r.x + r.w) (r.y + r.h)
  let xmin := min (min x0 x1) (min x2 x3)
  let xmax := max (max x0 x1) (max x2 x3)
  let ymin := min (min y0 y1) (min y2 y3)
  let ymax := max (max y0 y1) (max y2 y3)
  ⟨xmin, ymin, xmax - xmin, ymax - ymin⟩

end QTransform

/-- Python int() on a rational: truncation toward zero. -/
def pyInt (q : ℚ) : ℤ := if 0 ≤ q then ⌊q⌋ else ⌈q⌉

/-- Python round() to an integer: round half to even. -/
def pyRound (q : ℚ) : ℤ :=
  let f := ⌊q⌋
  let r := q - f
  if r < 1/2 then f
  else if 1/2 < r then f + 1
  else if 2 ∣ f then f else f + 1

/-- math.hypot(a, b) as used by _transform_scale.  Every view transform
this program produces is axis-aligned (rotations are right angles), so
one of the two first-row entries is always zero and the hypotenuse is
exact; the final branch, which would need a real square root, is never
reached and theorems about the zoom carry the axis-aligned hypothesis. -/
def hypotQ (a b : ℚ) : ℚ :=
  if a = 0 then |b| else if b = 0 then |a| else 0

/-- A QPixmap: integer dimensions plus its pixel buffer, kept abstract as
a list of pixel values (the viewer never touches individual pixels). -/
structure QPixmap where
  width : ℤ
  height : ℤ
  pixels : List ℤ
  deriving DecidableEq

/-- ClippedPixmapItem (graphics_items.py): a QGraphicsPixmapItem carrying
an optional clip rectangle.  The Python field _clip_rect is None or a
QRectF; every test on it is a plain is-not-None test (QRectF defines no
truth value of its own). -/
structure ClippedPixmapItem where
  pixmap : QPixmap
  clip_rect : Option QRect
  deriving DecidableEq

namespace ClippedPixmapItem

/-- graphics_items.py setClipRect: store the rect and repaint. -/
def setClipRect (it : ClippedPixmapItem) (r : QRect) : ClippedPixmapItem :=
  { it with clip_rect := some r }

/-- graphics_items.py clearClipRect: drop the rect and repaint. -/
def clearClipRect (it : ClippedPixmapItem) : ClippedPixmapItem :=
  { it with clip_rect := none }

/-- QGraphicsPixmapItem.boundingRect of the unclipped item: the pixmap
rectangle at the origin. -/
def pixmapRect (it : ClippedPixmapItem) : QRect :=
  ⟨0, 0, (it.pixmap.width : ℚ), (it.pixmap.height : ℚ)⟩

/-- graphics_items.py boundingRect: the clip rect when one is set,
otherwise the full pixmap rectangle. -/
def boundingRect (it : ClippedPixmapItem) : QRect :=
  match it.clip_rect with
  | some c => c
  | none => it.pixmapRect

/-- graphics_items.py shape: a QPainterPath holding a single rectangle —
the clip rect when set, otherwise boundingRect.  We model the path by
that rectangle. -/
def shape (it : ClippedPixmapItem) : QRect :=
  match it.clip_rect with
  | some c => c
  | none => it.boundingRect

/-- QGraphicsItem.sceneBoundingRect: boundingRect mapped to the scene.
The item is added at the origin and never moved or transformed, so the
mapping is the identity. -/
def sceneBoundingRect (it : ClippedPixmapItem) : QRect :=
  it.boundingRect

/-- The closed point set of a rectangle, for describing painted regions. -/
def rectPts (r : QRect) : Set (ℚ × ℚ) :=
  fun p => r.x ≤ p.1 ∧ p.1 ≤ r.x + r.w ∧ r.y ≤ p.2 ∧ p.2 ≤ r.y + r.h

/-- graphics_items.py paint: the pixmap is drawn over its own rectangle;
when a clip rect is set the painter clip restricts the painted region to
its intersection with that rectangle. -/
def paintRegion (it : ClippedPixmapItem) : Set (ℚ × ℚ) :=
  match it.clip_rect with
  | some c => rectPts it.pixmapRect ∩ rectPts c
  | none => rectPts it.pixmapRect

end ClippedPixmapItem

/-- The view-state dictionary built by _capture_view_state. -/
structure ViewSnapshot where
  zoom : ℚ
  rotation : ℤ
  transform : QTransform
  scene_rect : QRect
  deriving DecidableEq

/-- The state of the HeicViewer main window that its view-state logic
reads and writes (\_init_state plus the scene, the view transform and the
widget flags the claims mention).  Stacks are Python lists used with
append/pop at the tail; we keep the top of each stack at the head.
current_idx is meaningful only while files is a loaded, non-empty list
(in Python it is None until then and every use is guarded).  crop_item
holds the rectangle of the dashed selection item while one is on the
scene.  crop_ui_active stands for the button visibility/enabled group
toggled by _set_crop_ui.  viewport_w/viewport_h are the viewport size in
pixels, read by fitInView.  zoom_label is the percentage shown next to
the slider. -/
structure ViewerState where
  files : Option (List String)
  current_idx : ℤ
  current_zoom : ℚ
  user_zoomed : Bool
  view_rotation : ℤ
  is_zoom_actual_size : Bool
  flip_h : Bool
  flip_v : Bool
  crop_mode : Bool
  crop_rect : Option QRect
  crop_item : Option QRect
  undo_stack : List ViewSnapshot
  redo_stack : List ViewSnapshot
  pixmap_item : Option ClippedPixmapItem
  scene_rect : QRect
  transform : QTransform
  viewport_w : ℤ
  viewport_h : ℤ
  slider_value : ℤ
  zoom_label : ℤ
  save_as_enabled : Bool
  undo_btn_enabled : Bool
  redo_btn_enabled : Bool
  crop_ui_active : Bool
  deriving DecidableEq

namespace ViewerState

/-- _transform_scale: math.hypot(t.m11(), t.m12()). -/
def transform_scale (t : QTransform) : ℚ := hypotQ t.m11 t.m12

/-- update_zoom_label: the label shows int(current_zoom * 100) percent. -/
def update_zoom_label (st : ViewerState) : ViewerState :=
  { st with zoom_label := pyInt (st.current_zoom * 100) }

/-- _sync_zoom_ui_from_view: read the zoom back off the view transform,
move the slider (signals blocked) and refresh the label. -/
def sync_zoom_ui (st : ViewerState) : ViewerState :=
  let st := { st with current_zoom := transform_scale st.transform }
  let st := { st with slider_value := pyRound (st.current_zoom * 100) }
  update_zoom_label st

/-- _capture_view_state: the four captured fields. -/
def capture_view_state (st : ViewerState) : ViewSnapshot :=
  ⟨st.current_zoom, st.view_rotation, st.transform, st.scene_rect⟩

/-- _restore_view_state.  The dictionary argument is always non-empty, so
the leading falsiness guard never fires.  The function reads
self.pixmap_item, which exists whenever a snapshot was ever captured; the
none branch is unreachable and returns the state unchanged. -/
def restore_view_state (st : ViewerState) (s : ViewSnapshot) : ViewerState :=
  match st.pixmap_item with
  | none => st
  | some item =>
    let st := { st with transform := s.transform, scene_rect := s.scene_rect,
                        current_zoom := s.zoom, view_rotation := s.rotation }
    let item := item.clearClipRect
    let full_rect := item.sceneBoundingRect
    let st :=
      if s.scene_rect ≠ full_rect then
        { st with pixmap_item := some (item.setClipRect s.scene_rect),
                  crop_rect := some s.scene_rect }
      else
        { st with pixmap_item := some item, crop_rect := none }
    let st := update_zoom_label st
    let st := { st with slider_value := pyInt (st.current_zoom * 100) }
    { st with user_zoomed := true, save_as_enabled := true }

/-- _update_undo_redo_buttons: each button is enabled iff its stack is
non-empty. -/
def update_undo_redo_buttons (st : ViewerState) : ViewerState :=
  { st with undo_btn_enabled := st.undo_stack ≠ [],
            redo_btn_enabled := st.redo_stack ≠ [] }

/-- undo: a no-op on an empty undo stack; otherwise push the current view
state onto the redo stack, pop the undo stack and restore the popped
snapshot, then refresh the buttons. -/
def undo (st : ViewerState) : ViewerState :=
  match st.undo_stack with
  | [] => st
  | s :: rest =>
    let st := { st with redo_stack := capture_view_state st :: st.redo_stack }
    let st := { st with undo_stack := rest }
    let st := restore_view_state st s
    update_undo_redo_buttons st

/-- redo: symmetric to undo. -/
def redo (st : ViewerState) : ViewerState :=
  match st.redo_stack with
  | [] => st
  | s :: rest =>
    let st := { st with undo_stack := capture_view_state st :: st.undo_stack }
    let st := { st with redo_stack := rest }
    let st := restore_view_state st s
    update_undo_redo_buttons st

/-- _set_crop_ui: toggles the Done/Cancel visibility and disables the
rotate/flip/convert/open buttons while cropping; modelled by a single
flag. -/
def set_crop_ui (st : ViewerState) (enabled : Bool) : ViewerState :=
  { st with crop_ui_active := enabled }

/-- enter_crop_mode. -/
def enter_crop_mode (st : ViewerState) : ViewerState :=
  set_crop_ui { st with crop_mode := true } true

/-- exit_crop_mode: leave crop mode, restore the cursor, restore the
buttons. -/
def exit_crop_mode (st : ViewerState) : ViewerState :=
  set_crop_ui { st with crop_mode := false } false

/-- clear_crop_preview: remove the dashed selection item (and the dim
overlay items, which carry no modelled state). -/
def clear_crop_preview (st : ViewerState) : ViewerState :=
  { st with crop_item := none }

/-- _apply_base_transform: reset the view transform, apply the axis-flip
scale, then the rotation by view_rotation degrees. -/
def apply_base_transform (st : ViewerState) : ViewerState :=
  let t := QTransform.identityT
  let sx : ℚ := if st.flip_h then -1 else 1
  let sy : ℚ := if st.flip_v then -1 else 1
  let t := t.scaleT sx sy
  let t := t.rotateT st.view_rotation
  { st with transform := t }

/-- QGraphicsView.fitInView(rect, KeepAspectRatio), translated from the
Qt source: rescale to unity using the mapped unit square, then scale by
the common ratio fitting rect into the viewport shrunk by a 2-pixel
margin; centerOn only scrolls.  Early returns on degenerate inputs. -/
def fit_in_view (st : ViewerState) (rect : QRect) : ViewerState :=
  let unity := st.transform.mapRectT ⟨0, 0, 1, 1⟩
  if unity.isEmpty then st
  else
    let t := st.transform.scaleT (1 / unity.w) (1 / unity.h)
    let viewRect : QRect := ⟨2, 2, (st.viewport_w : ℚ) - 4, (st.viewport_h : ℚ) - 4⟩
    if viewRect.isEmpty then { st with transform := t }
    else
      let sceneR := t.mapRectT rect
      if sceneR.isEmpty then { st with transform := t }
      else
        let xr := viewRect.w / sceneR.w
        let yr := viewRect.h / sceneR.h
        let s := min xr yr
        { st with transform := t.scaleT s s }

/-- commit_crop.  With no selection item it only leaves crop mode.
Otherwise: push the current view state for undo and clear the redo
stack, map the selection to scene coordinates (the selection item
carries no transform, so the mapping is the identity), clamp it to the
image bounds by rectangle intersection — falling back to the raw
selection when the intersection is empty — store it as crop_rect, remove
the crop visuals, clip the pixmap item to it, make it the scene rect,
fit the view to it, sync the zoom UI, enable Save As, and leave crop
mode.  commit_crop is reachable only with an image loaded, so
self.pixmap_item exists; the none branch is unreachable. -/
def commit_crop (st : ViewerState) : ViewerState :=
  match st.crop_item with
  | none => exit_crop_mode st
  | some sel =>
    match st.pixmap_item with
    | none => st
    | some item =>
      let st := { st with undo_stack := capture_view_state st :: st.undo_stack,
                          redo_stack := [] }
      let st := update_undo_redo_buttons st
      let selection_scene_rect := sel
      let image_scene_rect := item.sceneBoundingRect
      let clamped := selection_scene_rect.intersected image_scene_rect
      let final_crop := if clamped.isEmpty then selection_scene_rect else clamped
      let st := { st with crop_rect := some final_crop }
      let st := clear_crop_preview st
      let st := { st with pixmap_item := some (item.setClipRect final_crop) }
      let st := { st with scene_rect := final_crop }
      let st := fit_in_view st final_crop
      let st := sync_zoom_ui st
      let st := { st with save_as_enabled := true }
      exit_crop_mode st

/-- rotate_and_flip(delta): a no-op before the first image (no
pixmap_item attribute); otherwise add delta to view_rotation modulo 360
and rebuild the base transform.  When the user has zoomed (or 1:1 mode
is on), re-apply the current zoom on top and re-sync the zoom UI
(centerOn only scrolls); otherwise clear user_zoomed and leave the
fit-to-window for the deferred _fit_image on the next event-loop turn.
Finally enable Save As. -/
def rotate_and_flip (st : ViewerState) (delta : ℤ) : ViewerState :=
  match st.pixmap_item with
  | none => st
  | some _ =>
    let st := { st with view_rotation := (st.view_rotation + delta) % 360 }
    let keep_zoom := st.user_zoomed || st.is_zoom_actual_size
    let st := apply_base_transform st
    let st :=
      if keep_zoom then
        sync_zoom_ui
          { st with transform := st.transform.scaleT st.current_zoom st.current_zoom }
      else
        { st with user_zoomed := false }
    { st with save_as_enabled := true }

/-- flip_horizontal: toggle the flag, then rebuild via rotate_and_flip(0). -/
def flip_horizontal (st : ViewerState) : ViewerState :=
  match st.pixmap_item with
  | none => st
  | some _ => rotate_and_flip { st with flip_h := !st.flip_h } 0

/-- flip_vertical: toggle the flag, then rebuild via rotate_and_flip(0). -/
def flip_vertical (st : ViewerState) : ViewerState :=
  match st.pixmap_item with
  | none => st
  | some _ => rotate_and_flip { st with flip_v := !st.flip_v } 0

/-- set_zoom: clamp the requested zoom to [0.1, 4.0], scale the view by
the ratio to the current zoom (guarded away from zero), mark the zoom as
user-chosen, and re-sync the zoom UI from the view transform. -/
def set_zoom (st : ViewerState) (zoom : ℚ) : ViewerState :=
  let zoom := max 0.1 (min zoom 4.0)
  let cur := max st.current_zoom (1 / 1000000)
  let factor := zoom / cur
  let st := { st with transform := st.transform.scaleT factor factor }
  let st := { st with user_zoomed := true, is_zoom_actual_size := false }
  let st := sync_zoom_ui st
  update_zoom_label st

/-- on_wheel_zoom(factor): clamp current_zoom * factor to [0.1, 4.0],
apply it through set_zoom, then move the slider (signals blocked). -/
def on_wheel_zoom (st : ViewerState) (factor : ℚ) : ViewerState :=
  let new_zoom := st.current_zoom * factor
  let new_zoom := max 0.1 (min new_zoom 4.0)
  let st := set_zoom st new_zoom
  { st with slider_value := pyInt (new_zoom * 100) }

/-- on_slider_zoom(value): zoom to value percent. -/
def on_slider_zoom (st : ViewerState) (value : ℤ) : ViewerState :=
  set_zoom st ((value : ℚ) / 100)

/-- reset_view_state (handle_file helper): clear every per-image view
flag and transform and remove any clip from the pixmap item. -/
def reset_view_state (st : ViewerState) : ViewerState :=
  let st := { st with user_zoomed := false, view_rotation := 0,
                      current_zoom := 1, crop_rect := none,
                      is_zoom_actual_size := false,
                      flip_h := false, flip_v := false,
                      save_as_enabled := false,
                      transform := QTransform.identityT }
  { st with pixmap_item := st.pixmap_item.map ClippedPixmapItem.clearClipRect }

/-- handle_file(path, from_navigation=True): the navigation path of
handle_file.  Image decoding is I/O, so the outcome is a parameter:
file_found models path.exists(), and loaded the decoded pixmap (none
when Image.open fails).  A missing file errors out before anything
changes; a failed decode errors out after the view state was reset; on
success the scene is rebuilt around a fresh unclipped pixmap item and
the scene rect becomes its bounding rect (the fit runs on the next
event-loop turn).  With from_navigation=True neither files nor
current_idx is touched. -/
def handle_file_nav (st : ViewerState) (file_found : Bool) (loaded : Option QPixmap) :
    ViewerState :=
  if !file_found then st
  else
    let st := reset_view_state st
    match loaded with
    | none => st
    | some pm =>
      let item : ClippedPixmapItem := ⟨pm, none⟩
      { st with pixmap_item := some item,
                scene_rect := item.boundingRect }

/-- next_image: a no-op when no (non-empty) file list is loaded or crop
mode is active; otherwise advance current_idx, saturating at the last
index, and open that file in navigation mode. -/
def next_image (st : ViewerState) (file_found : Bool) (loaded : Option QPixmap) :
    ViewerState :=
  match st.files with
  | none => st
  | some fs =>
    if fs = [] ∨ st.crop_mode then st
    else
      let st := { st with current_idx := min (st.current_idx + 1) ((fs.length : ℤ) - 1) }
      handle_file_nav st file_found loaded

/-- prev_image: a no-op under the same guard; otherwise step current_idx
back, saturating at 0, and open that file in navigation mode. -/
def prev_image (st : ViewerState) (file_found : Bool) (loaded : Option QPixmap) :
    ViewerState :=
  match st.files with
  | none => st
  | some fs =>
    if fs = [] ∨ st.crop_mode then st
    else
      let st := { st with current_idx := max (st.current_idx - 1) 0 }
      handle_file_nav st file_found loaded

end ViewerState

/-! Python strings and pathlib suffix handling, for the save/convert
dialogs.  A Python str is modelled as its list of characters; the two
pathlib operations used (PurePath.suffix and PurePath.with_suffix) act on
the final path component, so the model works on the file name. -/

/-- str.rfind for a single character: the index of its last occurrence. -/
def pyRfind : List Char → Char → Option ℕ
  | [], _ => none
  | x :: xs, c =>
    match pyRfind xs c with
    | some i => some (i + 1)
    | none => if x = c then some 0 else none

/-- pathlib PurePath.suffix on a file name: the part from the last dot,
but empty when the dot is the first character or the last one
(0 < i < len(name) - 1 in the CPython source). -/
def pySuffix (name : List Char) : List Char :=
  match pyRfind name '.' with
  | some i => if 0 < i ∧ i + 1 < name.length then name.drop i else []
  | none => []

/-- pathlib PurePath.with_suffix on a file name: strip the old suffix if
there is one, then append the new one.  (CPython raises on an empty
name; callers pass names chosen in a save dialog, which are non-empty.) -/
def pyWithSuffix (name suffix : List Char) : List Char :=
  let old := pySuffix name
  let base := if old = [] then name else name.take (name.length - old.length)
  base ++ suffix

/-- str.lower, character by character. -/
def pyLower (s : List Char) : List Char := s.map Char.toLower

/-- The five save filters offered by convert_image and save_as_view. -/
inductive SaveFilter
  | jpeg
  | png
  | heic
  | avif
  | webp
  deriving DecidableEq

/-- The extension set matching each filter. -/
def SaveFilter.extensions : SaveFilter → List (List Char)
  | .jpeg => [".jpg".toList, ".jpeg".toList]
  | .png => [".png".toList]
  | .heic => [".heic".toList, ".heif".toList]
  | .avif => [".avif".toList]
  | .webp => [".webp".toList]

/-- The suffix-enforcement elif chain of convert_image: when the chosen
name does not already carry (case-insensitively) an extension of the
selected filter, replace its suffix by the canonical one. -/
def enforce_suffix_convert (f : SaveFilter) (out_path : List Char) : List Char :=
  match f with
  | .jpeg =>
    if pyLower (pySuffix out_path) ∈ [".jpg".toList, ".jpeg".toList] then out_path
    else pyWithSuffix out_path ".jpg".toList
  | .png =>
    if pyLower (pySuffix out_path) = ".png".toList then out_path
    else pyWithSuffix out_path ".png".toList
  | .heic =>
    if pyLower (pySuffix out_path) ∈ [".heic".toList, ".heif".toList] then out_path
    else pyWithSuffix out_path ".heic".toList
  | .avif =>
    if pyLower (pySuffix out_path) = ".avif".toList then out_path
    else pyWithSuffix out_path ".avif".toList
  | .webp =>
    if pyLower (pySuffix out_path) = ".webp".toList then out_path
    else pyWithSuffix out_path ".webp".toList

/-- The identical suffix-enforcement elif chain of save_as_view
(duplicated in the source). -/
def enforce_suffix_save_as (f : SaveFilter) (out_path : List Char) : List Char :=
  match f with
  | .jpeg =>
    if pyLower (pySuffix out_path) ∈ [".jpg".toList, ".jpeg".toList] then out_path
    else pyWithSuffix out_path ".jpg".toList
  | .png =>
    if pyLower (pySuffix out_path) = ".png".toList then out_path
    else pyWithSuffix out_path ".png".toList
  | .heic =>
    if pyLower (pySuffix out_path) ∈ [".heic".toList, ".heif".toList] then out_path
    else pyWithSuffix out_path ".heic".toList
  | .avif =>
    if pyLower (pySuffix out_path) = ".avif".toList then out_path
    else pyWithSuffix out_path ".avif".toList
  | .webp =>
    if pyLower (pySuffix out_path) = ".webp".toList then out_path
    else pyWithSuffix out_path ".webp".toList

/-! The Pillow image pipeline of save_as_view.  Decoding, pixel
semantics and encoding are delegated to Pillow; the type below records
which operation is applied to which image in which order, which is what
the save-pipeline claims are about. -/

/-- A Pillow image as a trace of the operations that produced it. -/
inductive PILImage
  /-- Image.open(path) followed by load(). -/
  | opened (path : String)
  /-- ImageOps.exif_transpose(img). -/
  | exif_transpose (img : PILImage)
  /-- img.crop((left, top, right, bottom)). -/
  | crop (img : PILImage) (left top right bottom : ℤ)
  /-- img.rotate(angle, expand=...). -/
  | rotate (img : PILImage) (angle : ℤ) (expand : Bool)
  /-- img.transpose(Image.FLIP_LEFT_RIGHT). -/
  | flip_left_right (img : PILImage)
  /-- img.transpose(Image.FLIP_TOP_BOTTOM). -/
  | flip_top_bottom (img : PILImage)
  deriving DecidableEq

/-- apply_view_rotation: Pillow rotates counter-clockwise, the view
rotation is clockwise, hence the minus; expand=True grows the canvas. -/
def apply_view_rotation (st : ViewerState) (img : PILImage) : PILImage :=
  if st.view_rotation = 0 then img
  else PILImage.rotate img (-st.view_rotation) true

/-- The image-processing body of save_as_view: open the original and
apply the EXIF orientation, crop to the int-truncated crop rectangle if
one is set (Python int() truncates toward zero), apply the view
rotation, then the horizontal flip, then the vertical flip. -/
def save_as_view_image (st : ViewerState) (path : String) : PILImage :=
  let img := PILImage.exif_transpose (PILImage.opened path)
  let img :=
    match st.crop_rect with
    | some r =>
      PILImage.crop img (pyInt r.left) (pyInt r.top) (pyInt r.right) (pyInt r.bottom)
    | none => img
  let img := apply_view_rotation st img
  let img := if st.flip_h then PILImage.flip_left_right img else img
  if st.flip_v then PILImage.flip_top_bottom img else img

/-- save_as_view end to end (dialog I/O aside): the enforced output
name and the processed image that img.save writes there. -/
def save_as_view_result (st : ViewerState) (path : String) (f : SaveFilter)
    (out_path : List Char) : List Char × PILImage :=
  (enforce_suffix_save_as f out_path, save_as_view_image st path)

/-! Claim-side definitions, written from the wording of the claims so
the theorems can compare them with the code-side functions above. -/

/-- The axis-flip scale matrix of claim C4: sx is -1 exactly when the
horizontal flip is active, sy is -1 exactly when the vertical flip is
active. -/
def flipMatrix (fh fv : Bool) : QTransform :=
  ⟨if fh then -1 else 1, 0, 0, if fv then -1 else 1⟩

/-- Exact cosine of an integer number of degrees, defined on the right
angles (the only rotation angles this program produces; the final 0 is a
placeholder never reached under the divisibility hypotheses of the
theorems that use it). -/
def cosDeg (a : ℤ) : ℚ :=
  if a % 360 = 0 then 1
  else if a % 360 = 90 then 0
  else if a % 360 = 180 then -1
  else if a % 360 = 270 then 0
  else 0

/-- Exact sine of an integer number of degrees, on the right angles. -/
def sinDeg (a : ℤ) : ℚ :=
  if a % 360 = 0 then 0
  else if a % 360 = 90 then 1
  else if a % 360 = 180 then 0
  else if a % 360 = 270 then -1
  else 0

/-- The rotation by a degrees, in the same Qt row-vector convention as
QTransform (its transpose is the standard column-convention rotation
matrix). -/
def rotMatrix (a : ℤ) : QTransform :=
  ⟨cosDeg a, sinDeg a, -sinDeg a, cosDeg a⟩

/-- The uniform scale by the zoom factor. -/
def zoomMatrix (z : ℚ) : QTransform := ⟨z, 0, 0, z⟩

/-! Concrete states for witnesses and counterexamples. -/

/-- A 100 by 100 pixmap. -/
def exPixmap : QPixmap := ⟨100, 100, [7, 11, 13]⟩

/-- An unclipped item showing exPixmap. -/
def exItem : ClippedPixmapItem := ⟨exPixmap, none⟩

/-- A plain viewer state: three files loaded, second one shown at 100%,
no edits pending. -/
def exState : ViewerState where
  files := some ["a.png", "b.png", "c.png"]
  current_idx := 1
  current_zoom := 1
  user_zoomed := true
  view_rotation := 0
  is_zoom_actual_size := false
  flip_h := false
  flip_v := false
  crop_mode := false
  crop_rect := none
  crop_item := none
  undo_stack := []
  redo_stack := []
  pixmap_item := some exItem
  scene_rect := ⟨0, 0, 100, 100⟩
  transform := QTransform.identityT
  viewport_w := 800
  viewport_h := 600
  slider_value := 100
  zoom_label := 100
  save_as_enabled := false
  undo_btn_enabled := false
  redo_btn_enabled := false
  crop_ui_active := false

/-- exState in crop mode with a selection dragged entirely outside the
image: the clamping intersection is empty there. -/
def exCropStateOutside : ViewerState :=
  { exState with crop_mode := true, crop_ui_active := true,
                 crop_item := some ⟨200, 200, 10, 10⟩ }

/-- exState in crop mode with a selection inside the image. -/
def exCropStateInside : ViewerState :=
  { exState with crop_mode := true, crop_ui_active := true,
                 crop_item := some ⟨10, 10, 50, 40⟩ }

/-- exState with one snapshot on the undo stack (as left behind by a
committed crop of the top-left quarter). -/
def exUndoState : ViewerState :=
  { exState with
      undo_stack := [⟨1, 0, QTransform.identityT, ⟨0, 0, 100, 100⟩⟩],
      crop_rect := some ⟨0, 0, 50, 50⟩,
      pixmap_item := some (exItem.setClipRect ⟨0, 0, 50, 50⟩),
      scene_rect := ⟨0, 0, 50, 50⟩,
      current_zoom := 2, view_rotation := 90,
      transform := ⟨0, 2, -2, 0⟩,
      undo_btn_enabled := true, save_as_enabled := true }

/-! Helper lemmas. -/

namespace ViewerState

theorem fit_in_view_crop_rect (st : ViewerState) (r : QRect) :
    (fit_in_view st r).crop_rect = st.crop_rect := by
  unfold fit_in_view
  dsimp only
  split_ifs <;> rfl

theorem fit_in_view_pixmap_item (st : ViewerState) (r : QRect) :
    (fit_in_view st r).pixmap_item = st.pixmap_item := by
  unfold fit_in_view
  dsimp only
  split_ifs <;> rfl

theorem fit_in_view_scene_rect (st : ViewerState) (r : QRect) :
    (fit_in_view st r).scene_rect = st.scene_rect := by
  unfold fit_in_view
  dsimp only
  split_ifs <;> rfl

theorem rotate_and_flip_pixmap_item (st : ViewerState) (d : ℤ) :
    (st.rotate_and_flip d).pixmap_item = st.pixmap_item := by
  unfold rotate_and_flip
  cases h : st.pixmap_item with
  | none => exact h.symm ▸ rfl
  | some pi =>
    simp only [sync_zoom_ui, update_zoom_label]
    split <;> rfl

theorem rotate_and_flip_view_rotation (st : ViewerState) (d : ℤ)
    (h : st.pixmap_item.isSome) :
    (st.rotate_and_flip d).view_rotation = (st.view_rotation + d) % 360 := by
  unfold rotate_and_flip
  cases hp : st.pixmap_item with
  | none => rw [hp] at h; simp at h
  | some pi =>
    simp only [sync_zoom_ui, update_zoom_label]
    split <;> rfl

theorem rotate_and_flip_rotation_range (st : ViewerState) (d : ℤ)
    (h0 : 0 ≤ st.view_rotation) (h1 : st.view_rotation < 360) :
    0 ≤ (st.rotate_and_flip d).view_rotation ∧
      (st.rotate_and_flip d).view_rotation < 360 := by
  unfold rotate_and_flip
  cases hp : st.pixmap_item with
  | none => exact ⟨h0, h1⟩
  | some pi =>
    simp only [sync_zoom_ui, update_zoom_label]
    constructor
    · split <;> · show (0 : ℤ) ≤ (st.view_rotation + d) % 360; omega
    · split <;> · show (st.view_rotation + d) % 360 < 360; omega

theorem handle_file_nav_current_idx (st : ViewerState) (fnd : Bool)
    (ld : Option QPixmap) :
    (st.handle_file_nav fnd ld).current_idx = st.current_idx := by
  unfold handle_file_nav
  split
  · rfl
  · cases ld <;> rfl

theorem undo_cons (st : ViewerState) (s : ViewSnapshot) (rest : List ViewSnapshot)
    (h : st.undo_stack = s :: rest) :
    st.undo = update_undo_redo_buttons
      (restore_view_state
        { st with redo_stack := capture_view_state st :: st.redo_stack,
                  undo_stack := rest } s) := by
  unfold undo
  rw [h]

theorem redo_cons (st : ViewerState) (s : ViewSnapshot) (rest : List ViewSnapshot)
    (h : st.redo_stack = s :: rest) :
    st.redo = update_undo_redo_buttons
      (restore_view_state
        { st with undo_stack := capture_view_state st :: st.undo_stack,
                  redo_stack := rest } s) := by
  unfold redo
  rw [h]

theorem capture_restore (st : ViewerState) (s : ViewSnapshot)
    (item : ClippedPixmapItem) (hpi : st.pixmap_item = some item) :
    capture_view_state (restore_view_state st s) = s := by
  unfold restore_view_state
  rw [hpi]
  dsimp only
  split_ifs <;> rfl

theorem restore_undo_stack (st : ViewerState) (s : ViewSnapshot) :
    (restore_view_state st s).undo_stack = st.undo_stack := by
  unfold restore_view_state
  cases st.pixmap_item
  · rfl
  · dsimp only; split_ifs <;> rfl

theorem restore_redo_stack (st : ViewerState) (s : ViewSnapshot) :
    (restore_view_state st s).redo_stack = st.redo_stack := by
  unfold restore_view_state
  cases st.pixmap_item
  · rfl
  · dsimp only; split_ifs <;> rfl

theorem restore_pixmap_isSome (st : ViewerState) (s : ViewSnapshot)
    (item : ClippedPixmapItem) (hpi : st.pixmap_item = some item) :
    ∃ it2, (restore_view_state st s).pixmap_item = some it2 := by
  unfold restore_view_state
  rw [hpi]
  dsimp only
  split_ifs
  · exact ⟨_, rfl⟩
  · exact ⟨_, rfl⟩

theorem exit_crop_mode_crop_rect (st : ViewerState) :
    (exit_crop_mode st).crop_rect = st.crop_rect := rfl

theorem exit_crop_mode_pixmap_item (st : ViewerState) :
    (exit_crop_mode st).pixmap_item = st.pixmap_item := rfl

theorem exit_crop_mode_scene_rect (st : ViewerState) :
    (exit_crop_mode st).scene_rect = st.scene_rect := rfl

theorem sync_zoom_ui_crop_rect (st : ViewerState) :
    (sync_zoom_ui st).crop_rect = st.crop_rect := rfl

theorem sync_zoom_ui_pixmap_item (st : ViewerState) :
    (sync_zoom_ui st).pixmap_item = st.pixmap_item := rfl

theorem sync_zoom_ui_scene_rect (st : ViewerState) :
    (sync_zoom_ui st).scene_rect = st.scene_rect := rfl

theorem commit_crop_crop_rect (st : ViewerState) (sel : QRect)
    (item : ClippedPixmapItem) (hsel : st.crop_item = some sel)
    (hpi : st.pixmap_item = some item) :
    (st.commit_crop).crop_rect =
      some (if (sel.intersected item.sceneBoundingRect).isEmpty then sel
            else sel.intersected item.sceneBoundingRect) := by
  unfold commit_crop
  rw [hsel, hpi]
  dsimp only
  split_ifs <;>
    · simp only [exit_crop_mode, set_crop_ui, sync_zoom_ui, update_zoom_label,
        fit_in_view_crop_rect]
      rfl

theorem capture_update_buttons (st : ViewerState) :
    capture_view_state (update_undo_redo_buttons st) = capture_view_state st := rfl

theorem update_buttons_undo_stack (st : ViewerState) :
    (update_undo_redo_buttons st).undo_stack = st.undo_stack := rfl

theorem update_buttons_redo_stack (st : ViewerState) :
    (update_undo_redo_buttons st).redo_stack = st.redo_stack := rfl

theorem update_buttons_pixmap_item (st : ViewerState) :
    (update_undo_redo_buttons st).pixmap_item = st.pixmap_item := rfl

theorem sync_zoom_ui_transform (st : ViewerState) :
    (sync_zoom_ui st).transform = st.transform := rfl

end ViewerState

namespace QTransform

theorem mulT_assoc (a b c : QTransform) :
    mulT (mulT a b) c = mulT a (mulT b c) := by
  unfold mulT
  simp only [mk.injEq]
  refine ⟨?_, ?_, ?_, ?_⟩ <;> ring

theorem transposeT_mulT (a b : QTransform) :
    transposeT (mulT a b) = mulT (transposeT b) (transposeT a) := by
  unfold mulT transposeT
  simp only [mk.injEq]
  refine ⟨?_, ?_, ?_, ?_⟩ <;> ring

theorem scale_rot_scale_eq (sx sy z c s : ℚ) :
    ((identityT.scaleT sx sy).rotApply s c).scaleT z z =
      mulT (mulT (zoomMatrix z) ⟨c, s, -s, c⟩) ⟨sx, 0, 0, sy⟩ := by
  unfold identityT scaleT rotApply mulT zoomMatrix
  simp only [mk.injEq]
  refine ⟨?_, ?_, ?_, ?_⟩ <;> ring

theorem rotateT_right_angles (t : QTransform) (a : ℤ)
    (h : a = 0 ∨ a = 90 ∨ a = 180 ∨ a = 270) :
    t.rotateT a = t.rotApply (sinDeg a) (cosDeg a) := by
  rcases h with h | h | h | h <;> subst h <;>
    · unfold rotateT rotApply sinDeg cosDeg
      norm_num
      try rfl

end QTransform


/-- Claim C8: calling undo in any state whose undo stack is empty —
whatever the redo stack holds — changes nothing at all (the whole state,
including both stacks, the view transform, zoom, rotation, scene rect
and the button flags, is unchanged), and symmetrically calling redo in
any state whose redo stack is empty changes nothing. -/
theorem C8_empty_stack_undo_redo_noop :
    (∀ st : ViewerState, st.undo_stack = [] → st.undo = st) ∧
    (∀ st : ViewerState, st.redo_stack = [] → st.redo = st) := by
  constructor <;> intro st h
  · unfold ViewerState.undo
    rw [h]
  · unfold ViewerState.redo
    rw [h]

/-- Witness for C8 at the claim's central cases: undo with redos
pending (empty undo stack, non-empty redo stack) and redo with a
non-empty undo stack (and empty redo stack). -/
theorem C8_empty_stack_undo_redo_noop_witness :
    ({ exState with
        redo_stack := [⟨1, 0, QTransform.identityT, ⟨0, 0, 100, 100⟩⟩] } :
      ViewerState).undo =
      { exState with
          redo_stack := [⟨1, 0, QTransform.identityT, ⟨0, 0, 100, 100⟩⟩] } ∧
    exUndoState.redo = exUndoState :=
  ⟨C8_empty_stack_undo_redo_noop.1
      { exState with
          redo_stack := [⟨1, 0, QTransform.identityT, ⟨0, 0, 100, 100⟩⟩] } rfl,
    C8_empty_stack_undo_redo_noop.2 exUndoState rfl⟩

/-- Claim C5: every rotation request (with an image shown, so the
hasattr guard passes) updates view_rotation to (view_rotation + delta)
mod 360; consequently view_rotation stays in [0, 360) along every
sequence of rotation requests, and four successive rotations by 90
degrees return view_rotation to its initial value. -/
theorem C5_rotation_bookkeeping :
    (∀ (st : ViewerState) (delta : ℤ), st.pixmap_item.isSome →
        (st.rotate_and_flip delta).view_rotation = (st.view_rotation + delta) % 360)
  ∧ (∀ (st : ViewerState) (deltas : List ℤ),
        0 ≤ st.view_rotation → st.view_rotation < 360 →
        0 ≤ (deltas.foldl ViewerState.rotate_and_flip st).view_rotation ∧
          (deltas.foldl ViewerState.rotate_and_flip st).view_rotation < 360)
  ∧ (∀ st : ViewerState, st.pixmap_item.isSome →
        0 ≤ st.view_rotation → st.view_rotation < 360 →
        ((((st.rotate_and_flip 90).rotate_and_flip 90).rotate_and_flip
            90).rotate_and_flip 90).view_rotation = st.view_rotation) := by
  refine ⟨fun st delta h => ViewerState.rotate_and_flip_view_rotation st delta h,
    fun st deltas => ?_, fun st h h0 h1 => ?_⟩
  · induction deltas generalizing st with
    | nil => exact fun h0 h1 => ⟨h0, h1⟩
    | cons d ds ih =>
      intro h0 h1
      have := ViewerState.rotate_and_flip_rotation_range st d h0 h1
      exact ih (st.rotate_and_flip d) this.1 this.2
  · have p1 := ViewerState.rotate_and_flip_pixmap_item st 90
    have p2 := ViewerState.rotate_and_flip_pixmap_item (st.rotate_and_flip 90) 90
    have p3 := ViewerState.rotate_and_flip_pixmap_item
      ((st.rotate_and_flip 90).rotate_and_flip 90) 90
    have r1 := ViewerState.rotate_and_flip_view_rotation st 90 h
    have r2 := ViewerState.rotate_and_flip_view_rotation (st.rotate_and_flip 90) 90
      (by rw [p1]; exact h)
    have r3 := ViewerState.rotate_and_flip_view_rotation
      ((st.rotate_and_flip 90).rotate_and_flip 90) 90 (by rw [p2, p1]; exact h)
    have r4 := ViewerState.rotate_and_flip_view_rotation
      (((st.rotate_and_flip 90).rotate_and_flip 90).rotate_and_flip 90) 90
      (by rw [p3, p2, p1]; exact h)
    rw [r4, r3, r2, r1]
    omega

/-- Witness for C5 at concrete states. -/
theorem C5_rotation_bookkeeping_witness :
    ((exState.rotate_and_flip 90).view_rotation = (exState.view_rotation + 90) % 360)
  ∧ (0 ≤ ([90, -90, 180].foldl ViewerState.rotate_and_flip exState).view_rotation ∧
      ([90, -90, 180].foldl ViewerState.rotate_and_flip exState).view_rotation < 360)
  ∧ ((((exState.rotate_and_flip 90).rotate_and_flip 90).rotate_and_flip
        90).rotate_and_flip 90).view_rotation = exState.view_rotation :=
  ⟨C5_rotation_bookkeeping.1 exState 90 (by decide),
   C5_rotation_bookkeeping.2.1 exState [90, -90, 180] (by decide) (by decide),
   C5_rotation_bookkeeping.2.2 exState (by decide) (by decide) (by decide)⟩

/-- Claim C10: next_image and prev_image do nothing when no (non-empty)
file list is loaded or crop mode is active; otherwise they keep
current_idx within [0, len(files) - 1]: next_image saturates at the last
index, prev_image at the first, so the file-list indexing that follows
is always in range. -/
theorem C10_navigation_bounds (st : ViewerState) (fnd : Bool) (ld : Option QPixmap) :
    ((st.files = none ∨ st.files = some [] ∨ st.crop_mode = true) →
      st.next_image fnd ld = st ∧ st.prev_image fnd ld = st)
  ∧ (∀ fs : List String, st.files = some fs → fs ≠ [] → st.crop_mode = false →
      0 ≤ st.current_idx → st.current_idx ≤ (fs.length : ℤ) - 1 →
      (0 ≤ (st.next_image fnd ld).current_idx ∧
        (st.next_image fnd ld).current_idx ≤ (fs.length : ℤ) - 1)
      ∧ (0 ≤ (st.prev_image fnd ld).current_idx ∧
        (st.prev_image fnd ld).current_idx ≤ (fs.length : ℤ) - 1)
      ∧ (st.current_idx = (fs.length : ℤ) - 1 →
        (st.next_image fnd ld).current_idx = (fs.length : ℤ) - 1)
      ∧ (st.current_idx = 0 → (st.prev_image fnd ld).current_idx = 0)) := by
  constructor
  · intro h
    unfold ViewerState.next_image ViewerState.prev_image
    rcases h with h | h | h
    · rw [h]; exact ⟨rfl, rfl⟩
    · rw [h]; simp
    · cases hf : st.files with
      | none => exact ⟨rfl, rfl⟩
      | some fs => simp [h]
  · intro fs hf hne hcm h0 h1
    have hnext : (st.next_image fnd ld).current_idx =
        min (st.current_idx + 1) ((fs.length : ℤ) - 1) := by
      unfold ViewerState.next_image
      rw [hf]
      simp only [hne, hcm, or_self, if_false, Bool.false_eq_true, or_false, if_neg hne]
      rw [ViewerState.handle_file_nav_current_idx]
    have hprev : (st.prev_image fnd ld).current_idx =
        max (st.current_idx - 1) 0 := by
      unfold ViewerState.prev_image
      rw [hf]
      simp only [hne, hcm, or_self, if_false, Bool.false_eq_true, or_false, if_neg hne]
      rw [ViewerState.handle_file_nav_current_idx]
    refine ⟨⟨?_, ?_⟩, ⟨?_, ?_⟩, ?_, ?_⟩ <;> omega

/-- Witness for C10: the no-op guard in crop mode and the saturation at
the last index, at concrete states. -/
theorem C10_navigation_bounds_witness :
    (exCropStateInside.next_image true (some exPixmap) = exCropStateInside ∧
      exCropStateInside.prev_image true (some exPixmap) = exCropStateInside)
  ∧ (0 ≤ (({ exState with current_idx := 2 } :
        ViewerState).next_image true (some exPixmap)).current_idx ∧
      (({ exState with current_idx := 2 } :
        ViewerState).next_image true (some exPixmap)).current_idx ≤
        ((3 : ℕ) : ℤ) - 1) :=
  ⟨(C10_navigation_bounds exCropStateInside true (some exPixmap)).1
      (Or.inr (Or.inr rfl)),
   ((C10_navigation_bounds { exState with current_idx := 2 } true
        (some exPixmap)).2 ["a.png", "b.png", "c.png"] rfl (by decide) rfl
      (by decide) (by decide)).1⟩

/-- Claim C1: from any state with an image loaded and a non-empty undo
stack (which covers every reachable such state), undo immediately
followed by redo restores the four captured view-state fields — zoom,
rotation, view transform and scene rect, i.e. the whole
_capture_view_state snapshot — to their values before the undo, and
leaves the undo stack equal to its contents before the undo. -/
theorem C1_undo_redo_round_trip (st : ViewerState) (item : ClippedPixmapItem)
    (hpi : st.pixmap_item = some item) (hne : st.undo_stack ≠ []) :
    ViewerState.capture_view_state (st.undo.redo) = ViewerState.capture_view_state st ∧
    (st.undo.redo).undo_stack = st.undo_stack := by
  obtain ⟨s, rest, hs⟩ : ∃ s rest, st.undo_stack = s :: rest := by
    cases h : st.undo_stack with
    | nil => exact absurd h hne
    | cons a l => exact ⟨a, l, rfl⟩
  have hu := ViewerState.undo_cons st s rest hs
  have hpi1 : ({ st with
      redo_stack := ViewerState.capture_view_state st :: st.redo_stack,
      undo_stack := rest } : ViewerState).pixmap_item = some item := hpi
  have hcap_u : ViewerState.capture_view_state st.undo = s := by
    rw [hu, ViewerState.capture_update_buttons]
    exact ViewerState.capture_restore _ s item hpi1
  have hundo_u : st.undo.undo_stack = rest := by
    rw [hu, ViewerState.update_buttons_undo_stack, ViewerState.restore_undo_stack]
  have hredo_u : st.undo.redo_stack =
      ViewerState.capture_view_state st :: st.redo_stack := by
    rw [hu, ViewerState.update_buttons_redo_stack, ViewerState.restore_redo_stack]
  obtain ⟨it2, hpix_u⟩ : ∃ it2, st.undo.pixmap_item = some it2 := by
    rw [hu, ViewerState.update_buttons_pixmap_item]
    exact ViewerState.restore_pixmap_isSome _ s item hpi1
  have hr := ViewerState.redo_cons st.undo (ViewerState.capture_view_state st)
    st.redo_stack hredo_u
  have hpi2 : ({ st.undo with
      undo_stack := ViewerState.capture_view_state st.undo :: st.undo.undo_stack,
      redo_stack := st.redo_stack } : ViewerState).pixmap_item = some it2 := hpix_u
  constructor
  · rw [hr, ViewerState.capture_update_buttons]
    exact ViewerState.capture_restore _ _ it2 hpi2
  · rw [hr, ViewerState.update_buttons_undo_stack, ViewerState.restore_undo_stack]
    show ViewerState.capture_view_state st.undo :: st.undo.undo_stack = st.undo_stack
    rw [hcap_u, hundo_u, hs]

/-- Witness for C1 at a concrete state carrying one undo snapshot. -/
theorem C1_undo_redo_round_trip_witness :
    ViewerState.capture_view_state (exUndoState.undo.redo) =
        ViewerState.capture_view_state exUndoState ∧
      (exUndoState.undo.redo).undo_stack = exUndoState.undo_stack :=
  C1_undo_redo_round_trip exUndoState (exItem.setClipRect ⟨0, 0, 50, 50⟩)
    rfl (by decide)

/-- Counterexample to claim C2 as stated: with the 100 by 100 image
displayed and a selection dragged to (200, 200, 10, 10), entirely
outside the image, the intersection with the image bounds is the empty
null rectangle, so commit_crop falls back to the raw selection and the
committed crop rectangle is not that intersection. -/
theorem C2_crop_clamp_counterexample :
    (ViewerState.commit_crop exCropStateOutside).crop_rect = some ⟨200, 200, 10, 10⟩ ∧
    QRect.intersected ⟨200, 200, 10, 10⟩
        (ClippedPixmapItem.sceneBoundingRect exItem) = QRect.null ∧
    (ViewerState.commit_crop exCropStateOutside).crop_rect ≠
      some (QRect.intersected ⟨200, 200, 10, 10⟩
        (ClippedPixmapItem.sceneBoundingRect exItem)) := by
  have h := ViewerState.commit_crop_crop_rect exCropStateOutside
    ⟨200, 200, 10, 10⟩ exItem rfl rfl
  have hint : QRect.intersected ⟨200, 200, 10, 10⟩
      (ClippedPixmapItem.sceneBoundingRect exItem) = QRect.null := by
    norm_num [QRect.intersected, ClippedPixmapItem.sceneBoundingRect,
      ClippedPixmapItem.boundingRect, ClippedPixmapItem.pixmapRect,
      exItem, exPixmap, QRect.null]
  have hemp : (QRect.intersected ⟨200, 200, 10, 10⟩
      (ClippedPixmapItem.sceneBoundingRect exItem)).isEmpty := by
    rw [hint]
    exact Or.inl le_rfl
  refine ⟨?_, hint, ?_⟩
  · rw [h, if_pos hemp]
  · rw [h, if_pos hemp, hint]
    intro hcon
    rw [Option.some_inj] at hcon
    have : (200 : ℚ) = 0 := congrArg QRect.x hcon
    norm_num at this

/-- Claim C2 as amended: for every crop selection committed while an
image is displayed, whenever the intersection of the selection rectangle
(in scene coordinates) with the image item's scene bounding rectangle is
non-empty, the committed crop rectangle equals that intersection and is
stored in crop_rect, applied as the item's clip rectangle, and made the
new scene rect; when the intersection is empty, commit_crop instead
commits the raw selection rectangle unclamped (see the counterexample). -/
theorem C2_crop_clamp_amended (st : ViewerState) (sel : QRect)
    (item : ClippedPixmapItem) (hsel : st.crop_item = some sel)
    (hpi : st.pixmap_item = some item)
    (hne : ¬ (sel.intersected item.sceneBoundingRect).isEmpty) :
    (st.commit_crop).crop_rect = some (sel.intersected item.sceneBoundingRect) ∧
    (st.commit_crop).pixmap_item =
      some (item.setClipRect (sel.intersected item.sceneBoundingRect)) ∧
    (st.commit_crop).scene_rect = sel.intersected item.sceneBoundingRect := by
  unfold ViewerState.commit_crop
  rw [hsel, hpi]
  dsimp only
  rw [if_neg hne]
  refine ⟨?_, ?_, ?_⟩ <;>
    · simp only [ViewerState.exit_crop_mode, ViewerState.set_crop_ui,
        ViewerState.sync_zoom_ui, ViewerState.update_zoom_label,
        ViewerState.fit_in_view_crop_rect, ViewerState.fit_in_view_pixmap_item,
        ViewerState.fit_in_view_scene_rect]
      try rfl

/-- Witness for the amended C2 at a concrete in-bounds selection. -/
theorem C2_crop_clamp_amended_witness :
    (ViewerState.commit_crop exCropStateInside).crop_rect =
      some (QRect.intersected ⟨10, 10, 50, 40⟩
        (ClippedPixmapItem.sceneBoundingRect exItem)) ∧
    (ViewerState.commit_crop exCropStateInside).pixmap_item =
      some (exItem.setClipRect (QRect.intersected ⟨10, 10, 50, 40⟩
        (ClippedPixmapItem.sceneBoundingRect exItem))) ∧
    (ViewerState.commit_crop exCropStateInside).scene_rect =
      QRect.intersected ⟨10, 10, 50, 40⟩
        (ClippedPixmapItem.sceneBoundingRect exItem) :=
  C2_crop_clamp_amended exCropStateInside ⟨10, 10, 50, 40⟩ exItem rfl rfl
    (by norm_num [QRect.intersected, QRect.isEmpty, QRect.null,
      ClippedPixmapItem.sceneBoundingRect, ClippedPixmapItem.boundingRect,
      ClippedPixmapItem.pixmapRect, exItem, exPixmap])

/-- Claim C3: committing a crop never modifies the pixmap data of the
displayed image, it only sets a clip rectangle on the displayed item;
after setClipRect the item's painting, boundingRect and shape are
restricted to that rectangle, and clearClipRect restores the full pixmap
region. -/
theorem C3_nondestructive_crop :
    (∀ st : ViewerState,
        (st.commit_crop).pixmap_item.map ClippedPixmapItem.pixmap =
          st.pixmap_item.map ClippedPixmapItem.pixmap)
  ∧ (∀ (it : ClippedPixmapItem) (r : QRect),
        (it.setClipRect r).pixmap = it.pixmap ∧
        (it.setClipRect r).boundingRect = r ∧
        (it.setClipRect r).shape = r ∧
        ClippedPixmapItem.paintRegion (it.setClipRect r) ⊆
          ClippedPixmapItem.rectPts r ∧
        (it.clearClipRect).boundingRect = it.pixmapRect ∧
        ClippedPixmapItem.paintRegion it.clearClipRect =
          ClippedPixmapItem.rectPts it.pixmapRect) := by
  constructor
  · intro st
    unfold ViewerState.commit_crop
    cases hc : st.crop_item with
    | none => rfl
    | some sel =>
      cases hp : st.pixmap_item with
      | none =>
        show st.pixmap_item.map _ = (none : Option ClippedPixmapItem).map _
        rw [hp]
      | some item =>
        dsimp only
        split_ifs <;>
          simp [ViewerState.exit_crop_mode, ViewerState.set_crop_ui,
            ViewerState.sync_zoom_ui, ViewerState.update_zoom_label,
            ViewerState.fit_in_view_pixmap_item, hp,
            ClippedPixmapItem.setClipRect]
  · intro it r
    refine ⟨rfl, rfl, rfl, ?_, rfl, rfl⟩
    show ClippedPixmapItem.rectPts it.pixmapRect ∩ ClippedPixmapItem.rectPts r ⊆
      ClippedPixmapItem.rectPts r
    exact Set.inter_subset_right

/-- Claim C4: after any rotate_and_flip call that preserves the current
zoom (the user has zoomed or 1:1 mode is on), the view transform is the
composition of the axis-flip scale by (sx, sy) — sx = -1 exactly when
the horizontal flip is active, sy = -1 exactly when the vertical flip is
active — with the rotation by view_rotation degrees and the uniform
scale by the current zoom factor.  First conjunct: in the Qt row-vector
convention the stored matrix is Zoom * Rot * Flip; second conjunct: in
the standard column-vector convention the same matrix reads
Flip * Rotation * Zoom, the flip followed by the rotation followed by
the zoom as the claim orders them (a point is zoomed, then rotated, then
flipped).  The divisibility hypotheses record that this program only
ever rotates by multiples of 90 degrees (where the Qt rotation entries
are exact). -/
theorem C4_view_transform_composition (st : ViewerState) (delta : ℤ)
    (hpi : st.pixmap_item.isSome)
    (hkeep : st.user_zoomed = true ∨ st.is_zoom_actual_size = true)
    (hrot : 90 ∣ st.view_rotation) (hdel : 90 ∣ delta) :
    (st.rotate_and_flip delta).transform =
      QTransform.mulT
        (QTransform.mulT (zoomMatrix st.current_zoom)
          (rotMatrix ((st.view_rotation + delta) % 360)))
        (flipMatrix st.flip_h st.flip_v) ∧
    QTransform.transposeT (st.rotate_and_flip delta).transform =
      QTransform.mulT
        (QTransform.mulT (flipMatrix st.flip_h st.flip_v)
          (QTransform.transposeT (rotMatrix ((st.view_rotation + delta) % 360))))
        (zoomMatrix st.current_zoom) := by
  have hr4 : (st.view_rotation + delta) % 360 = 0 ∨
      (st.view_rotation + delta) % 360 = 90 ∨
      (st.view_rotation + delta) % 360 = 180 ∨
      (st.view_rotation + delta) % 360 = 270 := by omega
  have hmain : (st.rotate_and_flip delta).transform =
      QTransform.mulT
        (QTransform.mulT (zoomMatrix st.current_zoom)
          (rotMatrix ((st.view_rotation + delta) % 360)))
        (flipMatrix st.flip_h st.flip_v) := by
    cases hp : st.pixmap_item with
    | none => rw [hp] at hpi; simp at hpi
    | some pi =>
      have hk : (st.user_zoomed || st.is_zoom_actual_size) = true := by
        rcases hkeep with h | h <;> simp [h]
      unfold ViewerState.rotate_and_flip
      rw [hp]
      dsimp only
      unfold ViewerState.apply_base_transform
      dsimp only
      simp only [hk, if_true]
      rw [ViewerState.sync_zoom_ui_transform]
      dsimp only
      rw [QTransform.rotateT_right_angles _ _ hr4, QTransform.scale_rot_scale_eq]
      rfl
  refine ⟨hmain, ?_⟩
  rw [hmain, QTransform.transposeT_mulT, QTransform.transposeT_mulT,
    QTransform.mulT_assoc]
  have hflip : QTransform.transposeT (flipMatrix st.flip_h st.flip_v) =
      flipMatrix st.flip_h st.flip_v := rfl
  have hzoom : QTransform.transposeT (zoomMatrix st.current_zoom) =
      zoomMatrix st.current_zoom := rfl
  rw [hflip, hzoom]

/-- Witness for C4: a 90-degree rotation on top of an active horizontal
flip at 200% zoom. -/
theorem C4_view_transform_composition_witness :
    (({ exState with flip_h := true, current_zoom := 2 } :
        ViewerState).rotate_and_flip 90).transform =
      QTransform.mulT
        (QTransform.mulT (zoomMatrix 2) (rotMatrix ((0 + 90) % 360)))
        (flipMatrix true false) :=
  (C4_view_transform_composition
    { exState with flip_h := true, current_zoom := 2 } 90 rfl (Or.inl rfl)
    ⟨0, rfl⟩ ⟨1, rfl⟩).1

/-- Claim C6: when saving a copy with edits, the image written is the
original file opened, EXIF-transposed, then — if a crop rectangle is set
— cropped to the integer-truncated crop rectangle coordinates, then — if
view_rotation is non-zero — rotated by minus view_rotation with
expansion, then horizontally flipped, then vertically flipped, in
exactly that order; and it is saved at the suffix-enforced chosen path. -/
theorem C6_save_pipeline_order (st : ViewerState) (path : String)
    (f : SaveFilter) (out_path : List Char) :
    save_as_view_image st path =
      (let source := PILImage.exif_transpose (PILImage.opened path)
       let cropped :=
         match st.crop_rect with
         | some r => PILImage.crop source (pyInt r.left) (pyInt r.top)
             (pyInt r.right) (pyInt r.bottom)
         | none => source
       let rotated :=
         if st.view_rotation ≠ 0 then
           PILImage.rotate cropped (-st.view_rotation) true
         else cropped
       let hflipped :=
         if st.flip_h then PILImage.flip_left_right rotated else rotated
       if st.flip_v then PILImage.flip_top_bottom hflipped else hflipped) ∧
    save_as_view_result st path f out_path =
      (enforce_suffix_save_as f out_path, save_as_view_image st path) := by
  constructor
  · unfold save_as_view_image apply_view_rotation
    dsimp only
    cases st.crop_rect <;> by_cases h : st.view_rotation = 0 <;> simp [h]
  · rfl

theorem pyRfind_eq_none (l : List Char) (c : Char) (h : c ∉ l) :
    pyRfind l c = none := by
  induction l with
  | nil => rfl
  | cons x xs ih =>
    rw [List.mem_cons] at h
    push_neg at h
    unfold pyRfind
    rw [ih h.2]
    exact if_neg fun hxc => h.1 hxc.symm

theorem pyRfind_append_cons (b t : List Char) (c : Char) (h : c ∉ t) :
    pyRfind (b ++ c :: t) c = some b.length := by
  induction b with
  | nil =>
    show pyRfind (c :: t) c = some 0
    unfold pyRfind
    rw [pyRfind_eq_none t c h]
    simp
  | cons x xs ih =>
    show pyRfind (x :: (xs ++ c :: t)) c = some (xs.length + 1)
    unfold pyRfind
    rw [ih]

theorem pySuffix_append_cons (b t : List Char) (hb : b ≠ []) (ht : t ≠ [])
    (h : '.' ∉ t) :
    pySuffix (b ++ '.' :: t) = '.' :: t := by
  unfold pySuffix
  rw [pyRfind_append_cons b t '.' h]
  dsimp only
  have h1 : 0 < b.length := List.length_pos.mpr hb
  have h2 : b.length + 1 < (b ++ '.' :: t).length := by
    simp only [List.length_append, List.length_cons]
    have := List.length_pos.mpr ht
    omega
  rw [if_pos ⟨h1, h2⟩]
  exact List.drop_left b ('.' :: t)

theorem pySuffix_cases (p : List Char) :
    pySuffix p = [] ∨
    ∃ i, 0 < i ∧ i + 1 < p.length ∧ pySuffix p = p.drop i := by
  unfold pySuffix
  cases hf : pyRfind p '.' with
  | none => exact Or.inl rfl
  | some i =>
    by_cases hc : 0 < i ∧ i + 1 < p.length
    · exact Or.inr ⟨i, hc.1, hc.2, if_pos hc⟩
    · exact Or.inl (if_neg hc)

theorem pyWithSuffix_base_ne (p : List Char) (hp : p ≠ []) (suf : List Char) :
    ∃ b, b ≠ [] ∧ pyWithSuffix p suf = b ++ suf := by
  unfold pyWithSuffix
  dsimp only
  rcases pySuffix_cases p with h | ⟨i, hi, hlen, hdrop⟩
  · rw [h, if_pos rfl]
    exact ⟨p, hp, rfl⟩
  · have hne : pySuffix p ≠ [] := by
      rw [hdrop]
      have hil : i < p.length := by omega
      intro hnil
      have := congrArg List.length hnil
      simp only [List.length_drop, List.length_nil] at this
      omega
    rw [if_neg hne, hdrop]
    refine ⟨p.take (p.length - (p.drop i).length), ?_, rfl⟩
    intro hnil
    have := congrArg List.length hnil
    simp only [List.length_take, List.length_drop, List.length_nil] at this
    omega

theorem pySuffix_pyWithSuffix (p t : List Char) (hp : p ≠ []) (ht : t ≠ [])
    (h : '.' ∉ t) :
    pySuffix (pyWithSuffix p ('.' :: t)) = '.' :: t := by
  obtain ⟨b, hb, heq⟩ := pyWithSuffix_base_ne p hp ('.' :: t)
  rw [heq]
  exact pySuffix_append_cons b t hb ht h

/-- Claim C7: in both convert_image and save_as_view, for every selected
output filter and every chosen output path (a non-empty file name), if
the path suffix does not already belong, case-insensitively, to the
selected format's extension set, it is replaced, so the saved file
always carries an extension matching the selected format: .jpg/.jpeg for
JPEG, .png for PNG, .heic/.heif for HEIC, .avif for AVIF, .webp for
WEBP. -/
theorem C7_suffix_enforcement (f : SaveFilter) (p : List Char) (hp : p ≠ []) :
    pyLower (pySuffix (enforce_suffix_convert f p)) ∈ f.extensions ∧
    pyLower (pySuffix (enforce_suffix_save_as f p)) ∈ f.extensions := by
  have key : ∀ t : List Char, t ≠ [] → '.' ∉ t →
      pyLower (pySuffix (pyWithSuffix p ('.' :: t))) = pyLower ('.' :: t) := by
    intro t h1 h2
    rw [pySuffix_pyWithSuffix p t hp h1 h2]
  constructor <;> cases f <;>
      simp only [enforce_suffix_convert, enforce_suffix_save_as,
        SaveFilter.extensions] <;>
      split_ifs with h
  all_goals first
    | exact h
    | (simp only [List.mem_cons, List.mem_singleton]; tauto)
    | (rw [show (".jpg".toList : List Char) = '.' :: ['j', 'p', 'g'] from rfl,
          key ['j', 'p', 'g'] (by decide) (by decide)]
       decide)
    | (rw [show (".png".toList : List Char) = '.' :: ['p', 'n', 'g'] from rfl,
          key ['p', 'n', 'g'] (by decide) (by decide)]
       decide)
    | (rw [show (".heic".toList : List Char) = '.' :: ['h', 'e', 'i', 'c'] from rfl,
          key ['h', 'e', 'i', 'c'] (by decide) (by decide)]
       decide)
    | (rw [show (".avif".toList : List Char) = '.' :: ['a', 'v', 'i', 'f'] from rfl,
          key ['a', 'v', 'i', 'f'] (by decide) (by decide)]
       decide)
    | (rw [show (".webp".toList : List Char) = '.' :: ['w', 'e', 'b', 'p'] from rfl,
          key ['w', 'e', 'b', 'p'] (by decide) (by decide)]
       decide)

/-- Witness for C7 at a concrete name carrying the wrong extension. -/
theorem C7_suffix_enforcement_witness :
    pyLower (pySuffix (enforce_suffix_convert SaveFilter.jpeg "photo.PNG".toList)) ∈
      SaveFilter.jpeg.extensions ∧
    pyLower (pySuffix (enforce_suffix_save_as SaveFilter.jpeg "photo.PNG".toList)) ∈
      SaveFilter.jpeg.extensions :=
  C7_suffix_enforcement SaveFilter.jpeg "photo.PNG".toList (by decide)

theorem hypotQ_zero_right (x : ℚ) : hypotQ x 0 = |x| := by
  unfold hypotQ
  split_ifs with h1 h2
  · rw [h1]
  · rfl
  · exact absurd rfl h2

theorem hypotQ_zero_left (y : ℚ) : hypotQ 0 y = |y| := by
  unfold hypotQ
  rw [if_pos rfl]

theorem hypotQ_scale (a b f : ℚ) (h : b = 0 ∨ a = 0) :
    hypotQ (a * f) (b * f) = hypotQ a b * |f| := by
  rcases h with h | h <;> rw [h, zero_mul]
  · rw [hypotQ_zero_right, hypotQ_zero_right, abs_mul]
  · rw [hypotQ_zero_left, hypotQ_zero_left, abs_mul]

theorem clamp_bounds (z : ℚ) :
    0.1 ≤ max 0.1 (min z 4.0) ∧ max 0.1 (min z 4.0) ≤ 4.0 :=
  ⟨le_max_left _ _, max_le (by norm_num) (min_le_right _ _)⟩

theorem clamp_idem (z : ℚ) :
    max 0.1 (min (max 0.1 (min z 4.0)) 4.0) = max 0.1 (min z 4.0) := by
  have h := clamp_bounds z
  rw [min_eq_left h.2, max_eq_right h.1]

namespace ViewerState

theorem set_zoom_current_zoom (st : ViewerState) (z : ℚ)
    (haxis : st.transform.m12 = 0 ∨ st.transform.m11 = 0)
    (hsync : transform_scale st.transform = st.current_zoom)
    (hmin : 1 / 1000000 ≤ st.current_zoom) :
    (st.set_zoom z).current_zoom = max 0.1 (min z 4.0) := by
  have hpos : 0 < st.current_zoom := lt_of_lt_of_le (by norm_num) hmin
  unfold set_zoom sync_zoom_ui update_zoom_label transform_scale
  dsimp only [QTransform.scaleT]
  rw [hypotQ_scale _ _ _ haxis]
  unfold transform_scale at hsync
  rw [hsync, max_eq_left hmin]
  have hfac : 0 ≤ max 0.1 (min z 4.0) / st.current_zoom :=
    div_nonneg (le_trans (by norm_num) (clamp_bounds z).1) (le_of_lt hpos)
  rw [abs_of_nonneg hfac, mul_comm, div_mul_cancel₀ _ (ne_of_gt hpos)]

theorem on_wheel_zoom_current_zoom (st : ViewerState) (factor : ℚ)
    (haxis : st.transform.m12 = 0 ∨ st.transform.m11 = 0)
    (hsync : transform_scale st.transform = st.current_zoom)
    (hmin : 1 / 1000000 ≤ st.current_zoom) :
    (st.on_wheel_zoom factor).current_zoom =
      max 0.1 (min (st.current_zoom * factor) 4.0) := by
  unfold on_wheel_zoom
  dsimp only
  show (st.set_zoom (max 0.1 (min (st.current_zoom * factor) 4.0))).current_zoom = _
  rw [set_zoom_current_zoom st _ haxis hsync hmin, clamp_idem]

end ViewerState

/-- Claim C9: set_zoom clamps every requested zoom to [0.1, 4.0] before
applying it, and on_wheel_zoom clamps current_zoom * factor the same
way, so (whenever current_zoom is in sync with the view transform and
away from the 1e-6 guard) a zoom applied through either operation never
falls below 10% or exceeds 400%. -/
theorem C9_zoom_clamping (st : ViewerState) (z factor : ℚ)
    (haxis : st.transform.m12 = 0 ∨ st.transform.m11 = 0)
    (hsync : ViewerState.transform_scale st.transform = st.current_zoom)
    (hmin : 1 / 1000000 ≤ st.current_zoom) :
    ((st.set_zoom z).current_zoom = max 0.1 (min z 4.0) ∧
      0.1 ≤ (st.set_zoom z).current_zoom ∧ (st.set_zoom z).current_zoom ≤ 4.0) ∧
    ((st.on_wheel_zoom factor).current_zoom =
        max 0.1 (min (st.current_zoom * factor) 4.0) ∧
      0.1 ≤ (st.on_wheel_zoom factor).current_zoom ∧
      (st.on_wheel_zoom factor).current_zoom ≤ 4.0) := by
  have h1 := ViewerState.set_zoom_current_zoom st z haxis hsync hmin
  have h2 := ViewerState.on_wheel_zoom_current_zoom st factor haxis hsync hmin
  refine ⟨⟨h1, ?_, ?_⟩, ⟨h2, ?_, ?_⟩⟩
  · rw [h1]; exact (clamp_bounds z).1
  · rw [h1]; exact (clamp_bounds z).2
  · rw [h2]; exact (clamp_bounds _).1
  · rw [h2]; exact (clamp_bounds _).2

/-- Witness for C9: a wheel zoom-out and an over-range request at the
identity transform. -/
theorem C9_zoom_clamping_witness :
    ((exState.set_zoom 10).current_zoom = max 0.1 (min 10 4.0) ∧
      0.1 ≤ (exState.set_zoom 10).current_zoom ∧
      (exState.set_zoom 10).current_zoom ≤ 4.0) ∧
    ((exState.on_wheel_zoom (1 / 2)).current_zoom =
        max 0.1 (min (exState.current_zoom * (1 / 2)) 4.0) ∧
      0.1 ≤ (exState.on_wheel_zoom (1 / 2)).current_zoom ∧
      (exState.on_wheel_zoom (1 / 2)).current_zoom ≤ 4.0) :=
  C9_zoom_clamping exState 10 (1 / 2) (Or.inl rfl)
    (by norm_num [ViewerState.transform_scale, hypotQ, exState,
      QTransform.identityT])
    (by norm_num [exState])

end HeicViewerPlus
